import Mathlib

/-!
Verification of the support interaction subsystem of the genesis_ecommerce
repository: the ticket lifecycle endpoints (`api/v1/support.py`) and the
customer-support chatbot context/prompt assembly (`customer_support_bot/bot.py`).

Modelling conventions:
* SQL records (`db/schema.py`) become Lean structures; `datetime` timestamps are
  abstracted as `Nat` values read from an explicit `now` argument (the wall
  clock during one request).
* The database session is an explicit `DB` state (lists of records keyed by
  integer id) threaded through each endpoint.
* `HTTPException` becomes `Except HTTPError`; `logger` calls become an explicit
  list of emitted log lines where a claim depends on them.
* The Gemini call and the bot-side record lookups are fallible functions
  returning `Except Unit`, mirroring Python `try/except` blocks.
-/

namespace GenesisEcommerce

/-- Order record, from `db/schema.py` class `Orders`. -/
structure Order where
  id : Int
  user_id : Int
  items : List String
  status : String
  created_at : Nat
  updated_at : Nat
deriving Repr, DecidableEq

/-- Ticket record, from `db/schema.py` class `Tickets`. -/
structure Ticket where
  id : Int
  order_id : Int
  issue_description : String
  status : String
  created_at : Nat
  updated_at : Nat
deriving Repr, DecidableEq

/-- The record store visible to the API endpoints: the `orders` and `tickets`
tables of the SQL database. -/
structure DB where
  orders : List Order
  tickets : List Ticket
deriving Repr, DecidableEq

/-- Embeds `session.get(Orders, oid)`: fetch an order by primary key. -/
def DB.getOrder (db : DB) (oid : Int) : Option Order :=
  db.orders.find? (fun o => o.id == oid)

/-- Embeds `session.get(Tickets, tid)`: fetch a ticket by primary key. -/
def DB.getTicket (db : DB) (tid : Int) : Option Ticket :=
  db.tickets.find? (fun t => t.id == tid)

/-- An HTTP-level failure, from FastAPI `HTTPException(status_code, detail)`. -/
structure HTTPError where
  status_code : Nat
  detail : String
deriving Repr, DecidableEq

namespace SupportAPI

/-- The legal ticket statuses, from `update_ticket_status` in
`api/v1/support.py`: `valid_statuses = ["open", "in_progress", "resolved", "closed"]`. -/
def valid_statuses : List String := ["open", "in_progress", "resolved", "closed"]

/-- The id the store assigns to a newly inserted ticket.  The SQL layer uses an
autoincrement primary key; we abstract it as one more than the table size. -/
def nextTicketId (db : DB) : Int := Int.ofNat db.tickets.length + 1

/-- Embeds `create_ticket` from `api/v1/support.py` (POST `/support/tickets`).
Verifies the order exists (404 otherwise, no write), then inserts a ticket with
status `"open"` and both timestamps stamped from the current clock, and returns
the success message together with the new ticket.  The second component is the
database state after the request. -/
def create_ticket (db : DB) (order_id : Int) (issue_description : String)
    (now : Nat) : Except HTTPError (String × Ticket) × DB :=
  match db.getOrder order_id with
  | none => (Except.error ⟨404, "Order not found"⟩, db)
  | some _ =>
    let new_ticket : Ticket :=
      { id := nextTicketId db
        order_id := order_id
        issue_description := issue_description
        status := "open"
        created_at := now
        updated_at := now }
    (Except.ok ("Ticket created successfully", new_ticket),
      { db with tickets := db.tickets ++ [new_ticket] })

/-- Decidable equality for `Except`, needed to evaluate endpoint outcomes on
concrete inputs. -/
instance exceptDecEq {ε α : Type} [DecidableEq ε] [DecidableEq α] :
    DecidableEq (Except ε α) := fun x y =>
  match x, y with
  | .ok a, .ok b =>
    if h : a = b then isTrue (by rw [h])
    else isFalse (by intro hc; cases hc; exact h rfl)
  | .error a, .error b =>
    if h : a = b then isTrue (by rw [h])
    else isFalse (by intro hc; cases hc; exact h rfl)
  | .ok _, .error _ => isFalse (by intro hc; cases hc)
  | .error _, .ok _ => isFalse (by intro hc; cases hc)

/-- Everything `update_ticket_status` produces: the response (or HTTP error)
sent to the caller, the database state after the request, and the log lines it
emitted. -/
structure UpdateOutcome where
  resp : Except HTTPError (String × Ticket)
  db : DB
  logs : List String
deriving Repr, DecidableEq

/-- Embeds `update_ticket_status` from `api/v1/support.py`
(PATCH `/support/tickets/\x7bticket_id\x7d/status`).  Fetches the ticket (404 if
absent), rejects a status outside `valid_statuses` with a 400 whose detail
enumerates the legal values, otherwise sets the new status, refreshes
`updated_at` from the clock and persists.  The prior status is interpolated
into the success log line only. -/
def update_ticket_status (db : DB) (ticket_id : Int) (status : String)
    (now : Nat) : UpdateOutcome :=
  let log0 := "Updating ticket " ++ toString ticket_id ++ " status to: " ++ status
  match db.getTicket ticket_id with
  | none =>
    { resp := Except.error ⟨404, "Ticket not found"⟩
      db := db
      logs := [log0, "Ticket not found: " ++ toString ticket_id] }
  | some ticket =>
    if valid_statuses.contains status then
      let old_status := ticket.status
      let ticket' := { ticket with status := status, updated_at := now }
      let db' : DB :=
        { db with
          tickets := db.tickets.map (fun u => if u.id == ticket_id then ticket' else u) }
      { resp := Except.ok ("Ticket status updated successfully", ticket')
        db := db'
        logs := [log0,
          "Updated ticket " ++ toString ticket_id ++ " status from " ++
            old_status ++ " to " ++ ticket'.status] }
    else
      { resp := Except.error
          ⟨400, "Invalid status. Must be one of: " ++ String.intercalate (", ") valid_statuses⟩
        db := db
        logs := [log0, "Invalid status: " ++ status] }

end SupportAPI

namespace Bot

/-- A conversation turn as the bot receives it (`customer_support_bot/bot.py`,
`conversation_history` entries): a dict with `role` and `content` keys, here a
structure since the API layer always supplies both fields. -/
structure Msg where
  role : String
  content : String
deriving Repr, DecidableEq

/-- The record-store access available to the bot (the SQLModel `Session`).
Each lookup may fail (modelling a raised exception, caught by the bot) or
return the record(s) found. -/
structure Store where
  getOrder : Int → Except Unit (Option Order)
  getTicket : Int → Except Unit (Option Ticket)
  userOrders : Int → Except Unit (List Order)

/-- Embeds `CustomerSupportBot._get_order_context`: look up the order, return a
not-found sentinel if absent, an error sentinel if the lookup raised, otherwise
the formatted order section. -/
def get_order_context (store : Store) (order_id : Int) : String :=
  match store.getOrder order_id with
  | Except.error _ =>
    "Error retrieving order #" ++ toString order_id ++ " information."
  | Except.ok none =>
    "Order #" ++ toString order_id ++ " not found in system."
  | Except.ok (some order) =>
    "\nOrder Information:\n- Order ID: " ++ toString order.id ++
      "\n- User ID: " ++ toString order.user_id ++
      "\n- Items: " ++ String.intercalate (", ") order.items ++
      "\n- Status: " ++ order.status ++
      "\n- Created: " ++ toString order.created_at ++
      "\n- Last Updated: " ++ toString order.updated_at ++ "\n"

/-- Embeds `CustomerSupportBot._get_ticket_context`: look up the ticket, then
its associated order for the order status (`"Unknown"` when that order is
absent); any raised lookup converts to the ticket error sentinel. -/
def get_ticket_context (store : Store) (ticket_id : Int) : String :=
  match store.getTicket ticket_id with
  | Except.error _ =>
    "Error retrieving ticket #" ++ toString ticket_id ++ " information."
  | Except.ok none =>
    "Ticket #" ++ toString ticket_id ++ " not found in system."
  | Except.ok (some ticket) =>
    match store.getOrder ticket.order_id with
    | Except.error _ =>
      "Error retrieving ticket #" ++ toString ticket_id ++ " information."
    | Except.ok o =>
      let order_status := match o with
        | some order => order.status
        | none => "Unknown"
      "\nSupport Ticket Information:\n- Ticket ID: " ++ toString ticket.id ++
        "\n- Order ID: " ++ toString ticket.order_id ++
        "\n- Order Status: " ++ order_status ++
        "\n- Issue: " ++ ticket.issue_description ++
        "\n- Ticket Status: " ++ ticket.status ++
        "\n- Created: " ++ toString ticket.created_at ++
        "\n- Last Updated: " ++ toString ticket.updated_at ++ "\n"

/-- Embeds `CustomerSupportBot._get_user_orders_context`: scan orders by user
id and render the count header plus one line per order. -/
def get_user_orders_context (store : Store) (user_id : Int) : String :=
  match store.userOrders user_id with
  | Except.error _ =>
    "Error retrieving orders for user #" ++ toString user_id ++ "."
  | Except.ok [] =>
    "No orders found for user #" ++ toString user_id ++ "."
  | Except.ok orders =>
    "User #" ++ toString user_id ++ " has " ++ toString orders.length ++
      " order(s):\n" ++
      String.join (orders.map (fun order =>
        "\n- Order #" ++ toString order.id ++ ": " ++ order.status ++ " - " ++
          toString order.items.length ++ " item(s) - Created: " ++
          toString order.created_at))

/-- Embeds the `context_parts` list built inside `CustomerSupportBot.chat`:
the loaded documents first, then one section per supplied id.  Python tests
each id with `if order_id:` etc., so `none` and `some 0` alike contribute no
section (integer truthiness). -/
def context_parts (docs : String) (store : Store)
    (order_id ticket_id user_id : Option Int) : List String :=
  [docs]
    ++ (match order_id with
        | some i => if i = 0 then [] else [get_order_context store i]
        | none => [])
    ++ (match ticket_id with
        | some i => if i = 0 then [] else [get_ticket_context store i]
        | none => [])
    ++ (match user_id with
        | some i => if i = 0 then [] else [get_user_orders_context store i]
        | none => [])

/-- Embeds `context = "\n\n".join(context_parts)` in `CustomerSupportBot.chat`. -/
def build_context (docs : String) (store : Store)
    (order_id ticket_id user_id : Option Int) : String :=
  String.intercalate ("\n\n") (context_parts docs store order_id ticket_id user_id)

/-- The text of `self.system_prompt` before the `\x7bcontext\x7d` placeholder. -/
def system_prompt_pre : String :=
  "You are a helpful customer support assistant for Genesis E-commerce.\n\n" ++
  "Your responsibilities:\n" ++
  "1. Answer questions about orders, shipping, returns, and refunds\n" ++
  "2. Provide information from our Terms and Conditions and Support Guide\n" ++
  "3. Help customers understand our policies and procedures\n" ++
  "4. Be polite, professional, and concise\n" ++
  "5. If you cannot find specific information in the provided context, be honest about it\n\n" ++
  "Context Information:\n"

/-- The text of `self.system_prompt` after the `\x7bcontext\x7d` placeholder. -/
def system_prompt_post : String :=
  "\n\nImportant Guidelines:\n" ++
  "- Always be courteous and empathetic\n" ++
  "- Provide accurate information based on the context\n" ++
  "- If discussing specific orders or tickets, use the provided database information\n" ++
  "- Cite relevant policy sections when applicable\n" ++
  "- Keep responses concise but complete\n" ++
  "- If you don\x27t know something, suggest contacting human support\n"

/-- Embeds `self.system_prompt.format(context=context)`: the template has a
single placeholder, so formatting splices the context between the two literal
halves. -/
def format_system_prompt (context : String) : String :=
  system_prompt_pre ++ context ++ system_prompt_post

/-- Python capitalize on the role string: first character uppercased, the rest
lowercased. -/
def pyCapitalize (s : String) : String :=
  match s.data with
  | [] => ""
  | c :: cs => String.mk (c.toUpper :: cs.map Char.toLower)

/-- One line of the rendered conversation history, the body of the loop in
`CustomerSupportBot.chat`: capitalized role, colon, content, newline. -/
def renderTurn (m : Msg) : String :=
  pyCapitalize m.role ++ ": " ++ m.content ++ "\n"

/-- Embeds the Python slice `conversation_history[-5:]` for the general window
size `n`: the last `min n (length)` elements. -/
def lastN {α : Type} (n : Nat) (l : List α) : List α :=
  l.drop (l.length - n)

/-- The conversation-history block of the prompt, as a standalone composition:
empty unless the history is supplied and non-empty, in which case the literal
header followed by the rendered last-5 window. -/
def history_block (history : Option (List Msg)) : String :=
  match history with
  | some (m :: ms) =>
    "\n\nConversation History:\n" ++ String.join ((lastN 5 (m :: ms)).map renderTurn)
  | _ => ""

/-- Embeds the prompt assembly in `CustomerSupportBot.chat`, step by step as in
the source: format the system prompt with the joined context, append the
history block when `conversation_history` is truthy, then append the user
message and the trailing assistant cue. -/
def full_prompt (docs : String) (store : Store) (message : String)
    (order_id ticket_id user_id : Option Int)
    (history : Option (List Msg)) : String :=
  let context := build_context docs store order_id ticket_id user_id
  let p := format_system_prompt context
  let p := match history with
    | some (m :: ms) =>
      p ++ "\n\nConversation History:\n" ++
        String.join ((lastN 5 (m :: ms)).map renderTurn)
    | _ => p
  p ++ "\n\nUser: " ++ message ++ "\n\nAssistant:"

/-- The fixed apology returned when the Gemini call fails, from the `except`
arm of `CustomerSupportBot.chat`. -/
def fallback_message : String :=
  "I apologize, but I\x27m experiencing technical difficulties. " ++
  "Please try again or contact our support team directly at support@genesis-ecommerce.com"

/-- Embeds `CustomerSupportBot.chat`: build the prompt, call the
text-completion service (`generate`), return its text, or the fixed apology if
the call failed. -/
def chat (docs : String) (store : Store)
    (generate : String → Except Unit String) (message : String)
    (order_id ticket_id user_id : Option Int)
    (history : Option (List Msg)) : String :=
  match generate (full_prompt docs store message order_id ticket_id user_id history) with
  | Except.ok t => t
  | Except.error _ => fallback_message

end Bot

/-! Concrete fixtures used to evaluate the endpoints on explicit inputs. -/

/-- A sample order, id 7, owned by user 1. -/
def order7 : Order :=
  { id := 7, user_id := 1, items := ["widget"], status := "pending"
    created_at := 1, updated_at := 1 }

/-- A sample open ticket, id 1, on order 7. -/
def ticket1 : Ticket :=
  { id := 1, order_id := 7, issue_description := "item broken", status := "open"
    created_at := 1, updated_at := 1 }

/-- The empty database. -/
def db0 : DB := { orders := [], tickets := [] }

/-- A database holding `order7` and `ticket1`. -/
def db1 : DB := { orders := [order7], tickets := [ticket1] }

/-- `ticket1` with prior status `"in_progress"` instead of `"open"`. -/
def ticket1b : Ticket := { ticket1 with status := "in_progress" }

/-- A database identical to `db1` except for the prior status of the ticket. -/
def db1b : DB := { orders := [order7], tickets := [ticket1b] }

/-- An eight-turn conversation history. -/
def msgs8 : List Bot.Msg :=
  [⟨"user", "m1"⟩, ⟨"assistant", "m2"⟩, ⟨"user", "m3"⟩, ⟨"assistant", "m4"⟩,
   ⟨"user", "m5"⟩, ⟨"assistant", "m6"⟩, ⟨"user", "m7"⟩, ⟨"assistant", "m8"⟩]

/-- A bot store in which every lookup succeeds but finds nothing. -/
def emptyStore : Bot.Store :=
  { getOrder := fun _ => Except.ok none
    getTicket := fun _ => Except.ok none
    userOrders := fun _ => Except.ok [] }

/-- A bot store holding ticket 3 whose associated order 9 is absent. -/
def orphanTicketStore : Bot.Store :=
  { getOrder := fun _ => Except.ok none
    getTicket := fun i =>
      if i = 3 then
        Except.ok (some { id := 3, order_id := 9, issue_description := "late delivery"
                          status := "open", created_at := 2, updated_at := 4 })
      else Except.ok none
    userOrders := fun _ => Except.ok [] }

/-- A bot store whose order lookups raise while the other lookups succeed. -/
def failingOrderStore : Bot.Store :=
  { getOrder := fun _ => Except.error ()
    getTicket := fun _ => Except.ok none
    userOrders := fun _ => Except.ok [] }

/-! Theorems. -/

open SupportAPI Bot

/-- Auxiliary: updating the first record matched by `p` to a record `t2` that
still matches `p` makes `find? p` return `t2` on the mapped list. -/
theorem find?_map_ite {α : Type} (p : α → Bool) (t2 : α) (hp : p t2 = true) :
    ∀ (l : List α) (t : α), l.find? p = some t →
      (l.map (fun u => if p u then t2 else u)).find? p = some t2 := by
  intro l
  induction l with
  | nil => intro t h; simp at h
  | cons a l ih =>
    intro t h
    by_cases ha : p a = true
    · simp [List.find?, ha, hp]
    · simp only [Bool.not_eq_true] at ha
      simp only [List.find?, ha] at h
      simpa [List.find?, ha] using ih t h

/-- Auxiliary: joining a list whose head is `a` produces a string that
extends `a`. -/
theorem intercalate_head_exists (sep a : String) (l : List String) :
    ∃ r, String.intercalate sep (a :: l) = a ++ r := by
  suffices h : ∀ (l : List String) (acc : String),
      ∃ r, String.intercalate.go acc sep l = acc ++ r by
    exact h l a
  intro l
  induction l with
  | nil => exact fun acc => ⟨"", by simp [String.intercalate.go]⟩
  | cons b bs ih =>
    intro acc
    obtain ⟨r, hr⟩ := ih (acc ++ sep ++ b)
    refine ⟨sep ++ b ++ r, ?_⟩
    show String.intercalate.go (acc ++ sep ++ b) sep bs = acc ++ (sep ++ b ++ r)
    rw [hr]
    simp [String.append_assoc]

/-- C1: an update request whose status is outside the four legal values leaves
the database (hence the stored ticket, its status and its `updated_at`)
unchanged and produces no success response; when the ticket exists the failure
is the 400 whose detail enumerates the legal values; and every successful
update persists a status among the four legal values. -/
theorem C1_invalid_status_never_persisted
    (db : DB) (tid : Int) (s : String) (now : Nat) :
    (s ∉ valid_statuses →
      (update_ticket_status db tid s now).db = db ∧
      (update_ticket_status db tid s now).resp.isOk = false ∧
      (∀ t, db.getTicket tid = some t →
        (update_ticket_status db tid s now).resp =
          Except.error ⟨400,
            "Invalid status. Must be one of: open, in_progress, resolved, closed"⟩)) ∧
    (∀ msg t', (update_ticket_status db tid s now).resp = Except.ok (msg, t') →
      t'.status ∈ valid_statuses ∧ t'.status = s ∧
      ((update_ticket_status db tid s now).db).getTicket tid = some t') := by
  have hdetail : "Invalid status. Must be one of: " ++
      String.intercalate (", ") valid_statuses =
      "Invalid status. Must be one of: open, in_progress, resolved, closed" := by
    decide
  rcases hT : db.getTicket tid with _ | t
  · refine ⟨fun hs => ⟨?_, ?_, fun u hu => ?_⟩, fun msg t' hok => ?_⟩
    · simp [update_ticket_status, hT]
    · simp [update_ticket_status, hT, Except.isOk, Except.toBool]
    · exact Option.noConfusion hu
    · simp [update_ticket_status, hT] at hok
  · by_cases hmem : s ∈ valid_statuses
    · have houtcome : update_ticket_status db tid s now =
          { resp := Except.ok ("Ticket status updated successfully",
              { t with status := s, updated_at := now })
            db := { db with tickets := db.tickets.map (fun u =>
              if u.id == tid
                then ({ t with status := s, updated_at := now } : Ticket) else u) }
            logs := ["Updating ticket " ++ toString tid ++ " status to: " ++ s,
              "Updated ticket " ++ toString tid ++ " status from " ++
                t.status ++ " to " ++ s] } := by
        simp [update_ticket_status, hT, hmem]
      refine ⟨fun hs => absurd hmem hs, fun msg t' hok => ?_⟩
      rw [houtcome] at hok
      simp only [Except.ok.injEq, Prod.mk.injEq] at hok
      obtain ⟨hmsg, ht'⟩ := hok
      subst ht'
      refine ⟨by simpa using hmem, rfl, ?_⟩
      rw [houtcome]
      have hpt : ((({ t with status := s, updated_at := now } : Ticket)).id == tid)
          = true := by
        simpa using List.find?_some hT
      have hT' : db.tickets.find? (fun u => u.id == tid) = some t := hT
      exact find?_map_ite (fun u : Ticket => u.id == tid) _ hpt db.tickets t hT'
    · refine ⟨fun hs => ⟨?_, ?_, fun u hu => ?_⟩, fun msg t' hok => ?_⟩
      · simp [update_ticket_status, hT, hmem]
      · simp [update_ticket_status, hT, hmem, Except.isOk, Except.toBool]
      · simp [update_ticket_status, hT, hmem, hdetail]
      · simp [update_ticket_status, hT, hmem] at hok

/-- Witness for C1: in `db1`, updating ticket 1 to the illegal status
`"bogus"` leaves the database unchanged and yields the enumerating 400, while
updating it to `"closed"` persists a legal status. -/
theorem C1_invalid_status_never_persisted_witness :
    ((update_ticket_status db1 1 ("bogus") 5).db = db1 ∧
     (update_ticket_status db1 1 ("bogus") 5).resp =
       Except.error ⟨400,
         "Invalid status. Must be one of: open, in_progress, resolved, closed"⟩) ∧
    ({ ticket1 with status := "closed", updated_at := 5 }.status ∈ valid_statuses ∧
     { ticket1 with status := "closed", updated_at := 5 }.status = "closed" ∧
     ((update_ticket_status db1 1 ("closed") 5).db).getTicket 1 =
       some { ticket1 with status := "closed", updated_at := 5 }) := by
  have hbad := C1_invalid_status_never_persisted db1 1 ("bogus") 5
  have hgood := C1_invalid_status_never_persisted db1 1 ("closed") 5
  refine ⟨⟨(hbad.1 (by decide)).1, (hbad.1 (by decide)).2.2 ticket1 (by decide)⟩, ?_⟩
  have := hgood.2 ("Ticket status updated successfully")
    { ticket1 with status := "closed", updated_at := 5 } (by decide)
  exact this

/-- C3: creating a ticket for an order id that does not resolve fails with the
404 for a missing order and writes nothing; creating one for an existing order
appends a ticket whose status is `"open"` and whose created and updated
timestamps are equal. -/
theorem C3_create_ticket_open_and_notfound
    (db : DB) (oid : Int) (desc : String) (now : Nat) :
    (db.getOrder oid = none →
      create_ticket db oid desc now =
        (Except.error ⟨404, "Order not found"⟩, db)) ∧
    (∀ o, db.getOrder oid = some o →
      ∃ t, create_ticket db oid desc now =
          (Except.ok ("Ticket created successfully", t),
            { db with tickets := db.tickets ++ [t] }) ∧
        t.status = "open" ∧ t.created_at = t.updated_at ∧ t.order_id = oid) := by
  constructor
  · intro h
    simp [create_ticket, h]
  · intro o h
    refine ⟨{ id := nextTicketId db, order_id := oid, issue_description := desc
              status := "open", created_at := now, updated_at := now }, ?_, rfl, rfl, rfl⟩
    simp [create_ticket, h]

/-- Witness for C3: against the empty database, creating a ticket for order 7
fails with the 404 and no write; against `db1`, it succeeds with an open
ticket whose timestamps are equal. -/
theorem C3_create_ticket_open_and_notfound_witness :
    (create_ticket db0 7 ("item broken") 3 =
      (Except.error ⟨404, "Order not found"⟩, db0)) ∧
    (∃ t, create_ticket db1 7 ("item broken") 3 =
        (Except.ok ("Ticket created successfully", t),
          { db1 with tickets := db1.tickets ++ [t] }) ∧
      t.status = "open" ∧ t.created_at = t.updated_at ∧ t.order_id = 7) :=
  ⟨(C3_create_ticket_open_and_notfound db0 7 ("item broken") 3).1 (by decide),
   (C3_create_ticket_open_and_notfound db1 7 ("item broken") 3).2 order7 (by decide)⟩

/-- C2: whenever the text-completion call on the prompt the bot built fails,
`chat` returns (rather than raises) the one fixed apology string, which names
the support contact address, for every combination of inputs. -/
theorem C2_chat_fallback_on_generation_failure
    (docs : String) (store : Store) (generate : String → Except Unit String)
    (message : String) (oid tid uid : Option Int) (history : Option (List Msg))
    (e : Unit)
    (h : generate (full_prompt docs store message oid tid uid history) =
      Except.error e) :
    chat docs store generate message oid tid uid history = fallback_message ∧
    chat docs store generate message oid tid uid history =
      "I apologize, but I\x27m experiencing technical difficulties. Please try again or contact our support team directly at support@genesis-ecommerce.com" := by
  have h1 : chat docs store generate message oid tid uid history = fallback_message := by
    simp [chat, h]
  exact ⟨h1, h1.trans (by decide)⟩

/-- Witness for C2: with a completion service that always fails, `chat`
returns the fixed apology string. -/
theorem C2_chat_fallback_on_generation_failure_witness :
    chat ("docs") emptyStore (fun _ => Except.error ()) ("hi") none none none none =
      "I apologize, but I\x27m experiencing technical difficulties. Please try again or contact our support team directly at support@genesis-ecommerce.com" :=
  (C2_chat_fallback_on_generation_failure ("docs") emptyStore
    (fun _ => Except.error ()) ("hi") none none none none () rfl).2

/-- C9 counterexample: two databases whose sole ticket differs only in its
prior status yield the same successful update response, so the prior status is
not observable in the result returned to the caller. -/
theorem C9_prior_status_not_in_response :
    (update_ticket_status db1 1 ("closed") 5).resp =
      (update_ticket_status db1b 1 ("closed") 5).resp ∧
    (db1.getTicket 1).map Ticket.status = some ("open") ∧
    (db1b.getTicket 1).map Ticket.status = some ("in_progress") := by
  decide

/-- C9 (amended): after a successful transition the prior status is recorded
in the emitted success log line, not in the response returned to the caller. -/
theorem C9_prior_status_in_logs
    (db : DB) (tid : Int) (s : String) (now : Nat) (t : Ticket)
    (hT : db.getTicket tid = some t) (hs : s ∈ valid_statuses) :
    (update_ticket_status db tid s now).logs =
      ["Updating ticket " ++ toString tid ++ " status to: " ++ s,
       "Updated ticket " ++ toString tid ++ " status from " ++ t.status ++
         " to " ++ s] := by
  simp [update_ticket_status, hT, hs]

/-- Witness for C9 (amended): updating ticket 1 of `db1` to `"closed"` logs
the prior status `"open"` in the success line. -/
theorem C9_prior_status_in_logs_witness :
    (update_ticket_status db1 1 ("closed") 5).logs =
      ["Updating ticket 1 status to: closed",
       "Updated ticket 1 status from open to closed"] := by
  rw [C9_prior_status_in_logs db1 1 ("closed") 5 ticket1 (by decide) (by decide)]
  decide

/-- C10: an id supplied as `0` is treated by truthiness exactly like an absent
id: the corresponding section is omitted and the assembled context (and the
whole chat result) coincide with the absent-id call. -/
theorem C10_zero_id_behaves_as_absent
    (docs : String) (store : Store) (oid tid uid : Option Int)
    (message : String) (history : Option (List Msg))
    (generate : String → Except Unit String) :
    build_context docs store (some 0) tid uid = build_context docs store none tid uid ∧
    build_context docs store oid (some 0) uid = build_context docs store oid none uid ∧
    build_context docs store oid tid (some 0) = build_context docs store oid tid none ∧
    chat docs store generate message (some 0) (some 0) (some 0) history =
      chat docs store generate message none none none history := by
  refine ⟨?_, ?_, ?_, ?_⟩ <;>
    simp [build_context, context_parts, chat, full_prompt]

/-- C4: a supplied order id that does not resolve yields the literal not-found
sentinel section; a raised order lookup yields the order error sentinel; and
either way the context is still assembled with the ticket and user sections
computed as usual. -/
theorem C4_order_lookup_failure_contained
    (store : Store) (docs : String) (oid tid uid : Int)
    (hoid : oid ≠ 0) (htid : tid ≠ 0) (huid : uid ≠ 0) :
    (store.getOrder oid = Except.ok none →
      get_order_context store oid =
        "Order #" ++ toString oid ++ " not found in system.") ∧
    (∀ e, store.getOrder oid = Except.error e →
      get_order_context store oid =
        "Error retrieving order #" ++ toString oid ++ " information.") ∧
    (store.getOrder oid = Except.ok none →
      build_context docs store (some oid) (some tid) (some uid) =
        String.intercalate ("\n\n")
          [docs, "Order #" ++ toString oid ++ " not found in system.",
           get_ticket_context store tid, get_user_orders_context store uid]) ∧
    (store.getOrder oid = Except.error () →
      build_context docs store (some oid) (some tid) (some uid) =
        String.intercalate ("\n\n")
          [docs, "Error retrieving order #" ++ toString oid ++ " information.",
           get_ticket_context store tid, get_user_orders_context store uid]) := by
  refine ⟨fun h => ?_, fun e h => ?_, fun h => ?_, fun h => ?_⟩ <;>
    simp [get_order_context, build_context, context_parts, h, hoid, htid, huid]

/-- Witness for C4: the empty store yields the literal not-found sentinel for
order 42, and a store whose order lookups raise still assembles the ticket and
user sections around the order error sentinel. -/
theorem C4_order_lookup_failure_contained_witness :
    get_order_context emptyStore 42 = "Order #42 not found in system." ∧
    build_context ("docs") failingOrderStore (some 42) (some 3) (some 2) =
      "docs\n\nError retrieving order #42 information.\n\nTicket #3 not found in system.\n\nNo orders found for user #2." := by
  constructor
  · rw [(C4_order_lookup_failure_contained emptyStore ("docs") 42 3 2
      (by decide) (by decide) (by decide)).1 rfl]
    decide
  · rw [(C4_order_lookup_failure_contained failingOrderStore ("docs") 42 3 2
      (by decide) (by decide) (by decide)).2.2.2 rfl]
    decide

/-- C5: the conversation window keeps exactly the last `min 5 n` turns as a
suffix (hence in original relative order), each rendered as the capitalized
role line, and an absent or empty history contributes no block and no
history header to the prompt. -/
theorem C5_history_truncation
    (msgs : List Msg) (docs : String) (store : Store) (message : String)
    (oid tid uid : Option Int) :
    (lastN 5 msgs).length = min 5 msgs.length ∧
    msgs.take (msgs.length - 5) ++ lastN 5 msgs = msgs ∧
    (∀ m : Msg, renderTurn m = pyCapitalize m.role ++ ": " ++ m.content ++ "\n") ∧
    (∀ x xs, msgs = x :: xs →
      full_prompt docs store message oid tid uid (some msgs) =
        format_system_prompt (build_context docs store oid tid uid) ++
          "\n\nConversation History:\n" ++
          String.join ((lastN 5 msgs).map renderTurn) ++
          "\n\nUser: " ++ message ++ "\n\nAssistant:") ∧
    full_prompt docs store message oid tid uid none =
      format_system_prompt (build_context docs store oid tid uid) ++
        "\n\nUser: " ++ message ++ "\n\nAssistant:" ∧
    full_prompt docs store message oid tid uid (some []) =
      format_system_prompt (build_context docs store oid tid uid) ++
        "\n\nUser: " ++ message ++ "\n\nAssistant:" := by
  refine ⟨?_, ?_, fun m => rfl, fun x xs hx => ?_, rfl, rfl⟩
  · rw [lastN, List.length_drop]
    omega
  · exact List.take_append_drop _ _
  · subst hx
    rfl

/-- Witness for C5: with the eight-turn history `msgs8`, the window has
length `min 5 8 = 5` and the prompt renders exactly the last five turns under
the history header. -/
theorem C5_history_truncation_witness :
    (lastN 5 msgs8).length = min 5 msgs8.length ∧
    full_prompt ("docs") emptyStore ("q") none none none (some msgs8) =
      format_system_prompt (build_context ("docs") emptyStore none none none) ++
        "\n\nConversation History:\n" ++
        String.join ((lastN 5 msgs8).map renderTurn) ++
        "\n\nUser: " ++ "q" ++ "\n\nAssistant:" :=
  ⟨(C5_history_truncation msgs8 ("docs") emptyStore ("q") none none none).1,
   (C5_history_truncation msgs8 ("docs") emptyStore ("q") none none none).2.2.2.1
     ⟨"user", "m1"⟩
     [⟨"assistant", "m2"⟩, ⟨"user", "m3"⟩, ⟨"assistant", "m4"⟩,
      ⟨"user", "m5"⟩, ⟨"assistant", "m6"⟩, ⟨"user", "m7"⟩, ⟨"assistant", "m8"⟩]
     rfl⟩

/-- C6: the assembled context starts with the static documents section in
every case; with no ids supplied it is exactly that section; and with all
three ids supplied the order, ticket and user-orders sections follow in that
fixed order, joined by blank-line separators. -/
theorem C6_context_sections_fixed_order (docs : String) (store : Store) :
    build_context docs store none none none = docs ∧
    (∀ oid tid uid : Int, oid ≠ 0 → tid ≠ 0 → uid ≠ 0 →
      build_context docs store (some oid) (some tid) (some uid) =
        docs ++ "\n\n" ++ get_order_context store oid ++ "\n\n" ++
          get_ticket_context store tid ++ "\n\n" ++
          get_user_orders_context store uid) ∧
    (∀ oid tid uid : Option Int, ∃ rest : String,
      build_context docs store oid tid uid = docs ++ rest) := by
  refine ⟨rfl, fun oid tid uid hoid htid huid => ?_, fun oid tid uid => ?_⟩
  · simp [build_context, context_parts, hoid, htid, huid]
    rfl
  · exact intercalate_head_exists ("\n\n") docs _

/-- Witness for C6: over the empty store with all three ids supplied, the
context is the four sections in order with blank-line separators. -/
theorem C6_context_sections_fixed_order_witness :
    build_context ("docs") emptyStore (some 42) (some 3) (some 2) =
      "docs\n\nOrder #42 not found in system.\n\nTicket #3 not found in system.\n\nNo orders found for user #2." := by
  rw [(C6_context_sections_fixed_order ("docs") emptyStore).2.1 42 3 2
    (by decide) (by decide) (by decide)]
  decide

/-- C7: the prompt is always the formatted system instructions (context
interpolated), then the history block (empty unless a non-empty history was
supplied), then the literal user-message line, then the trailing assistant
cue. -/
theorem C7_prompt_fixed_composition
    (docs : String) (store : Store) (message : String)
    (oid tid uid : Option Int) (history : Option (List Msg)) :
    full_prompt docs store message oid tid uid history =
      format_system_prompt (build_context docs store oid tid uid) ++
        history_block history ++ "\n\nUser: " ++ message ++ "\n\nAssistant:" := by
  cases history with
  | none => simp [full_prompt, history_block]
  | some l =>
    cases l with
    | nil => simp [full_prompt, history_block]
    | cons m ms => simp [full_prompt, history_block, String.append_assoc]

/-- C8: a resolving ticket id whose associated order is absent still yields
the formatted ticket section, with the order status field holding the literal
`"Unknown"`. -/
theorem C8_ticket_section_unknown_order
    (store : Store) (tid : Int) (t : Ticket)
    (hT : store.getTicket tid = Except.ok (some t))
    (hO : store.getOrder t.order_id = Except.ok none) :
    get_ticket_context store tid =
      "\nSupport Ticket Information:\n- Ticket ID: " ++ toString t.id ++
        "\n- Order ID: " ++ toString t.order_id ++
        "\n- Order Status: " ++ "Unknown" ++
        "\n- Issue: " ++ t.issue_description ++
        "\n- Ticket Status: " ++ t.status ++
        "\n- Created: " ++ toString t.created_at ++
        "\n- Last Updated: " ++ toString t.updated_at ++ "\n" := by
  simp [get_ticket_context, hT, hO]

set_option maxRecDepth 4000 in
/-- Witness for C8: ticket 3 of `orphanTicketStore` references the absent
order 9, and its section reports order status Unknown. -/
theorem C8_ticket_section_unknown_order_witness :
    get_ticket_context orphanTicketStore 3 =
      "\nSupport Ticket Information:\n- Ticket ID: 3\n- Order ID: 9\n- Order Status: Unknown\n- Issue: late delivery\n- Ticket Status: open\n- Created: 2\n- Last Updated: 4\n" := by
  rw [C8_ticket_section_unknown_order orphanTicketStore 3
    { id := 3, order_id := 9, issue_description := "late delivery"
      status := "open", created_at := 2, updated_at := 4 }
    (by decide) (by decide)]
  decide

end GenesisEcommerce
